import Mathlib

/-
  Verification development for prusacam.py, a webcam poll-and-upload script
  for Prusa Connect.  The Python source is shallowly embedded below:
  pure fragments become Lean functions, the filesystem state is passed
  explicitly as a list of directory entries, exceptions become Except,
  and the poll loop is a step function driven by an input trace of
  query/capture outcomes.
-/

namespace Prusacam

/-! ## Python string and list primitives -/

/-- Substring test on lists of characters: does the pattern occur
contiguously inside the haystack?  Models the Python expression
`pat in hay` on strings. -/
def hasSub : List Char → List Char → Bool
  | [], pat => pat.isEmpty
  | h :: t, pat => pat.isPrefixOf (h :: t) || hasSub t pat

/-- Python `pat in hay` for strings. -/
def strContains (hay pat : String) : Bool :=
  hasSub hay.toList pat.toList

/-- Python slice `l[0:j]` where `j` may be negative (counted from the end,
clamped at 0).  Models `filtered[0:-1*max_images]` in `deleteImages`. -/
def pySliceUpto (l : List α) (j : Int) : List α :=
  let n : Int := l.length
  let stop : Int := if j < 0 then max 0 (n + j) else min j n
  l.take stop.toNat

/-- Python list indexing `l[i]` where a negative `i` counts from the end;
an out-of-range index raises `IndexError`.  Models `possible_rot[rot_ind]`. -/
inductive PyErr
  | indexError
  | typeError
  | keyError
  | nameError
  | networkError
  | connectionError
  deriving DecidableEq

def pyIndex (l : List α) (i : Int) : Except PyErr α :=
  let j : Int := if i < 0 then i + l.length else i
  if h : 0 ≤ j ∧ j.toNat < l.length then .ok (l.get ⟨j.toNat, h.2⟩)
  else .error .indexError

/-! ## deleteImages (prusacam.py lines 149-165)

```
def deleteImages(imgs_folder, fingerprint, max_images):
    os.chdir(str(imgs_folder))
    imgs = sorted(imgs_folder.iterdir(), key = os.path.getctime)
    filtered = []
    for img in imgs:
        if fingerprint in str(img) and ".jpg" in str(img):
            filtered.append(img)
    if len(filtered)>max_images:
        for img in filtered[0:-1*max_images]:
            os.remove(str(img))
```
A directory entry is modelled by the string `str(img)` (the full path of
the entry as yielded by `imgs_folder.iterdir()`) together with its
creation time `os.path.getctime`.  `os.chdir` only affects how relative
paths resolve and has no effect on the listing itself. -/

structure DirEntry where
  path : String
  ctime : Nat
  deriving DecidableEq

/-- The filter condition of the sweep loop body:
`fingerprint in str(img) and ".jpg" in str(img)`. -/
def imgMatches (fingerprint : String) (e : DirEntry) : Bool :=
  strContains e.path fingerprint && strContains e.path ".jpg"

/-- The ctime-ascending listing `sorted(imgs_folder.iterdir(), key = os.path.getctime)`.
The Python sort is stable; ties in `ctime` are left in listing order, which the
spec leaves undefined. -/
def sortedByCtime (files : List DirEntry) : List DirEntry :=
  files.insertionSort (fun a b => a.ctime ≤ b.ctime)

/-- The `filtered` list built by the loop in `deleteImages`. -/
def filteredImgs (files : List DirEntry) (fingerprint : String) : List DirEntry :=
  (sortedByCtime files).filter (imgMatches fingerprint)

/-- The sweep `deleteImages`, returning the directory contents after the
`os.remove` calls; `files` is the directory listing, `max_images` the
configured cap (an int in Python, so modelled as `Int`). -/
def deleteImages (files : List DirEntry) (fingerprint : String) (max_images : Int) :
    List DirEntry :=
  let filtered := filteredImgs files fingerprint
  if (filtered.length : Int) > max_images then
    let toDel := pySliceUpto filtered (-1 * max_images)
    files.filter (fun f => decide (f ∉ toDel))
  else
    files

/-! ## Rotation configuration (prusacam.py lines 186-194 and 226-237)

```
possible_rot = [None, cv2.ROTATE_90_CLOCKWISE, cv2.ROTATE_180, cv2.ROTATE_90_COUNTERCLOCKWISE]
if int(int(args.rotate)/90) == int(args.rotate)/90:
    rot_ind = int(int(args.rotate)/90)
    image_rotation = possible_rot[rot_ind]
else:
    raise TypeError(...)
```
The configured value is an integer; `int(r/90) == r/90` holds exactly when
90 divides r, and then `int(r/90)` is the exact quotient, so truncation
direction is irrelevant.  `possible_rot[rot_ind]` is Python list indexing:
negative indices count from the end, out-of-range indices raise
`IndexError`. -/

inductive RotCode
  | cw90
  | r180
  | ccw90
  deriving DecidableEq

/-- A frame, modelled by its payload and its orientation in degrees
(0 ≤ orient < 360 for canonical frames).  `cv2.rotate` acts on the
orientation; frame pixel data is outside this script (external library). -/
structure Frame where
  data : Nat
  orient : Nat
  deriving DecidableEq

def rotDegrees : RotCode → Nat
  | .cw90 => 90
  | .r180 => 180
  | .ccw90 => 270

/-- The library call `cv2.rotate(frame, code)`. -/
def cvRotate (c : RotCode) (f : Frame) : Frame :=
  ⟨f.data, (f.orient + rotDegrees c) % 360⟩

def possible_rot : List (Option RotCode) :=
  [none, some .cw90, some .r180, some .ccw90]

/-- Rotation parsing on the CLI path (lines 226-237); `rotate` is the
integer value of `args.rotate`. -/
def parseRotateCLI (rotate : Int) : Except PyErr (Option RotCode) :=
  if rotate % 90 = 0 then pyIndex possible_rot (rotate / 90)
  else .error .typeError

/-- Rotation parsing on the JSON path (lines 186-194): a missing
`"rotate"` key raises `KeyError`, which the surrounding handler turns
into no rotation; `TypeError` and `IndexError` propagate. -/
def parseRotateJSON : Option Int → Except PyErr (Option RotCode)
  | none => .ok none
  | some r => if r % 90 = 0 then pyIndex possible_rot (r / 90) else .error .typeError

/-- The rotation step inside `captureImage` (lines 93-94):
`if rotation is not None: frame = cv2.rotate(frame, rotation)`. -/
def storedFrame (rotation : Option RotCode) (frame : Frame) : Frame :=
  match rotation with
  | none => frame
  | some c => cvRotate c frame

/-! ## captureImage (prusacam.py lines 85-109)

```
cap = cv2.VideoCapture(camera_id)
if cap.isOpened():
    ret, frame = cap.read()
    if ret == True:
        file_name = ...
        img_path = imgs_folder/file_name
        if rotation is not None:
            frame = cv2.rotate(frame, rotation)
        cv2.imwrite(img_path, frame)
    print(... img_path.name ...)   # success print, outside the ret check!
else:
    print(... not opened ...)
try:
    cap.release()
except:
    pass
    return None          # inside the except block
return img_path
```
Control flow is modelled exactly, including the unbound-local errors: when
`ret` is false, the success print dereferences the undefined `img_path`
and raises `NameError` before the release; when the capture is not opened,
the final `return img_path` raises `NameError` after the release; the
`return None` only runs when `cap.release()` itself raises. -/

/-- Hardware behaviour of one `cv2.VideoCapture` acquisition: whether the
device opens, whether `cap.read()` yields a frame, and whether
`cap.release()` raises. -/
structure CamBehavior where
  opened : Bool
  readOk : Bool
  releaseRaises : Bool

/-- The function `captureImage`; the first component is the outcome of the
call (a raised exception, or the returned value: the saved file name with
the frame that was written, or Python `None`); the second component
records whether `cap.release()` was invoked before the function exited. -/
def captureImage (cam : CamBehavior) (fingerprint ts : String)
    (rotation : Option RotCode) (frame : Frame) :
    Except PyErr (Option (String × Frame)) × Bool :=
  if cam.opened then
    if cam.readOk then
      let file_name := fingerprint ++ "_" ++ ts ++ ".jpg"
      let stored := storedFrame rotation frame
      if cam.releaseRaises then (.ok none, true)
      else (.ok (some (file_name, stored)), true)
    else
      (.error .nameError, false)
  else
    if cam.releaseRaises then (.ok none, true)
    else (.error .nameError, true)

/-! ## selectCamera (prusacam.py lines 111-147) and camera startup

`selectCamera` probes indices 0..9; `readable i` models `cap.read()[0]`
at index `i`, and `confirmed i` models the operator eventually answering
yes at the prompt (the inner prompt loop re-asks until a well-formed
answer arrives, so only the final yes/no matters).  The for-loop breaks at
the first confirmed index and returns -1 when none is confirmed. -/

def selectCamera (readable confirmed : Nat → Bool) : Int :=
  match (List.range 10).find? (fun i => readable i && confirmed i) with
  | some i => (i : Int)
  | none => -1

inductive CameraId
  | idx (i : Int)
  | path (p : String)
  deriving DecidableEq

/-- Camera configuration on the CLI path (lines 252-258): with no
`--camera` argument the interactive selection runs and its result is used
unchecked; with an explicit camera the verifier decides between
acceptance and a fatal `ConnectionError`. -/
def cameraStartupCLI (argsCamera : Option String) (verify : String → Bool)
    (readable confirmed : Nat → Bool) : Except PyErr CameraId :=
  match argsCamera with
  | none => .ok (.idx (selectCamera readable confirmed))
  | some c => if verify c then .ok (.path c) else .error .connectionError

/-! ## The poll loop (prusacam.py lines 261-294)

```
status = getPrinterStatus(ip, pl_api_key)          # no try
printer_status = status["printer"]["state"]        # no try
while True:
    while printer_status == "PRINTING":
        try:
            status = getPrinterStatus(ip, pl_api_key)
        except:
            continue
        printer_status = status["printer"]["state"]
        img_path = captureImage(...)
        if img_path is not None:
            putImage(token, fingerprint, img_path)
        time.sleep(60)
    while printer_status != "PRINTING":
        ... identical body with time.sleep(120)
```
The environment is an input trace: each `getPrinterStatus` call either
raises (network error, or `json.loads` failure — both inside the `try`)
or returns a parsed JSON value; each `captureImage` call either returns a
path or `None` (its outcome is an input at this layer).  One `iterate`
models one pass through a loop body: the `except: continue` retries the
query with no sleep; a successful query is followed by the unprotected
`status["printer"]["state"]` whose lookup failure escapes the loop. -/

/-- A parsed JSON value. -/
inductive JVal
  | str (s : String)
  | num (n : Int)
  | obj (fields : List (String × JVal))

def lookupJ : List (String × JVal) → String → Option JVal
  | [], _ => none
  | (k, v) :: rest, key => if k = key then some v else lookupJ rest key

/-- Python subscripting `j[key]`: `KeyError` on a missing key,
`TypeError` when `j` is not a dict. -/
def pyGetKey : JVal → String → Except PyErr JVal
  | .obj fields, key =>
    match lookupJ fields key with
    | some v => .ok v
    | none => .error .keyError
  | _, _ => .error .typeError

/-- The unprotected field access `status["printer"]["state"]`. -/
def readState (body : JVal) : Except PyErr JVal := do
  let p ← pyGetKey body "printer"
  pyGetKey p "state"

/-- Python `printer_status == "PRINTING"`. -/
def isPrinting : JVal → Bool
  | .str s => s = "PRINTING"
  | _ => false

/-- Outcome of one `getPrinterStatus` call. -/
inductive QOut
  | fail
  | ok (body : JVal)

/-- Per-iteration environment input: the query outcomes consumed by the
tight retry (until the first success), and the capture outcome. -/
structure IterIn where
  queries : List QOut
  capture : Option String

/-- Observable actions of the loop body. -/
inductive Ev
  | query
  | capture
  | upload (name : String)
  | sleep (n : Nat)
  deriving DecidableEq

structure LoopState where
  printer_status : JVal
  dir : List String

/-- The `try/except: continue` retry: consume query outcomes until the
first success, counting the failed attempts; `none` when every provided
outcome failed (the loop is still retrying). -/
def runQueries : List QOut → Option (JVal × Nat)
  | [] => none
  | QOut.fail :: rest => (runQueries rest).map (fun bk => (bk.1, bk.2 + 1))
  | QOut.ok b :: _ => some (b, 0)

/-- The sleep chosen by the loop body: 60 inside the `PRINTING` branch,
120 inside the other branch — the branch is fixed by `printer_status` as
it was when the `while` condition was checked, i.e. at iteration entry. -/
def sleepFor (s : JVal) : Nat := if isPrinting s then 60 else 120

inductive IterOut
  | stuckRetrying (events : List Ev)
  | crashed (e : PyErr) (events : List Ev)
  | next (st : LoopState) (events : List Ev)

/-- One pass through a loop body (both branches are identical except for
the sleep).  Note there is no retention sweep here: the loop never calls
`deleteImages`. -/
def iterate (st : LoopState) (inp : IterIn) : IterOut :=
  match runQueries inp.queries with
  | none => .stuckRetrying (inp.queries.map (fun _ => Ev.query))
  | some (body, k) =>
    let evs := List.replicate (k + 1) Ev.query
    match readState body with
    | .error e => .crashed e evs
    | .ok newStatus =>
      let d := sleepFor st.printer_status
      match inp.capture with
      | none => .next ⟨newStatus, st.dir⟩ (evs ++ [Ev.capture, Ev.sleep d])
      | some nm => .next ⟨newStatus, st.dir ++ [nm]⟩
          (evs ++ [Ev.capture, Ev.upload nm, Ev.sleep d])

/-- The initial, unprotected status query before the loop
(lines 262-264): any failure propagates and terminates the process. -/
def startupStatus : QOut → Except PyErr JVal
  | .fail => .error .networkError
  | .ok body => readState body

/-- Run the loop over a finite input trace (stopping early on a crash or
an exhausted retry, which the good traces below never hit). -/
def runLoop : LoopState → List IterIn → LoopState
  | st, [] => st
  | st, inp :: rest =>
    match iterate st inp with
    | .next st2 _ => runLoop st2 rest
    | _ => st

/-- A healthy status body reporting the `PRINTING` state. -/
def printingBody : JVal := .obj [("printer", .obj [("state", .str "PRINTING")])]

/-- A healthy status body reporting the `IDLE` state. -/
def idleBody : JVal := .obj [("printer", .obj [("state", .str "IDLE")])]

/-- A standard healthy iteration input: one successful query and a
successful capture of a fingerprint-matching file. -/
def stdIn : IterIn := ⟨[QOut.ok printingBody], some "FPFPFPFPFPFPFPFP_t.jpg"⟩

/-! ## Lemmas about the sweep -/

theorem pySliceUpto_neg (l : List α) (M : Int) (hM : 1 ≤ M) :
    pySliceUpto l (-1 * M) = l.take (l.length - M.toNat) := by
  simp only [pySliceUpto]
  rw [if_pos (by omega : (-1 * M : Int) < 0)]
  congr 1
  omega

theorem sortedByCtime_perm (files : List DirEntry) :
    (sortedByCtime files).Perm files :=
  List.perm_insertionSort _ files

theorem filteredImgs_nodup (files : List DirEntry) (fp : String)
    (h : files.Nodup) : (filteredImgs files fp).Nodup := by
  exact List.Nodup.filter _ (((sortedByCtime_perm files).symm).nodup h)

theorem filter_not_mem_left {α : Type} [DecidableEq α] (t d : List α)
    (hdisj : t.Disjoint d) :
    (t ++ d).filter (fun a => decide (a ∉ t)) = d := by
  rw [List.filter_append]
  have h1 : t.filter (fun a => decide (a ∉ t)) = [] :=
    List.filter_eq_nil_iff.mpr (fun a ha => by simp [ha])
  have h2 : d.filter (fun a => decide (a ∉ t)) = d :=
    List.filter_eq_self.mpr (fun a ha => by
      simp only [decide_eq_true_eq]
      exact fun hm => hdisj hm ha)
  rw [h1, h2, List.nil_append]

theorem nodup_filter_not_mem_take {α : Type} [DecidableEq α]
    (l : List α) (k : Nat) (h : l.Nodup) :
    l.filter (fun a => decide (a ∉ l.take k)) = l.drop k := by
  have hnd := h
  rw [← List.take_append_drop k l, List.nodup_append] at hnd
  obtain ⟨-, -, hdisj⟩ := hnd
  have key := filter_not_mem_left (l.take k) (l.drop k) hdisj
  rw [List.take_append_drop] at key
  exact key

theorem deleteImages_eq (files : List DirEntry) (fp : String) (M : Int) :
    deleteImages files fp M =
      if ((filteredImgs files fp).length : Int) > M then
        files.filter (fun f => decide (f ∉ pySliceUpto (filteredImgs files fp) (-1 * M)))
      else files := rfl

theorem deleteImages_over_cap (files : List DirEntry) (fp : String) (M : Int)
    (hlen : M < ((filteredImgs files fp).length : Int)) (hM : 1 ≤ M) :
    deleteImages files fp M =
      files.filter (fun f => decide (f ∉
        (filteredImgs files fp).take ((filteredImgs files fp).length - M.toNat))) := by
  rw [deleteImages_eq, if_pos (by exact_mod_cast hlen : ((filteredImgs files fp).length : Int) > M),
    pySliceUpto_neg _ M hM]

theorem sweep_remaining_perm (files : List DirEntry) (fp : String) (M : Int)
    (hnd : files.Nodup) (hM : 1 ≤ M)
    (hlen : M < ((filteredImgs files fp).length : Int)) :
    ((deleteImages files fp M).filter (imgMatches fp)).Perm
      ((filteredImgs files fp).drop ((filteredImgs files fp).length - M.toNat)) := by
  set fl := filteredImgs files fp with hfl
  set k := fl.length - M.toNat with hkdef
  rw [deleteImages_over_cap files fp M hlen hM]
  rw [List.filter_filter]
  have hB : (files.filter (fun a => imgMatches fp a && decide (a ∉ fl.take k))).Perm
      ((sortedByCtime files).filter (fun a => imgMatches fp a && decide (a ∉ fl.take k))) :=
    List.Perm.filter _ ((sortedByCtime_perm files).symm)
  have hC : (sortedByCtime files).filter (fun a => imgMatches fp a && decide (a ∉ fl.take k)) =
      fl.filter (fun a => decide (a ∉ fl.take k)) := by
    rw [hfl]
    unfold filteredImgs
    rw [List.filter_filter]
    exact List.filter_congr (fun a _ => Bool.and_comm _ _)
  have hD : fl.filter (fun a => decide (a ∉ fl.take k)) = fl.drop k :=
    nodup_filter_not_mem_take fl k (filteredImgs_nodup files fp hnd)
  rw [← hD, ← hC]
  exact hB

/-! ## Claims C5 and C6: the retention sweep -/

/-- Concrete inputs for the sweep claims. -/
def wfp : String := "FPFPFPFPFPFPFPFP"

def w1 : DirEntry := ⟨"/imgs/FPFPFPFPFPFPFPFP_a.jpg", 5⟩

def w2 : DirEntry := ⟨"/imgs/FPFPFPFPFPFPFPFP_b.jpg", 1⟩

def w3 : DirEntry := ⟨"/imgs/FPFPFPFPFPFPFPFP_c.jpg", 3⟩

/-- C5 counterexample: with retention cap M = 0 and N = 1 matching file
(N > M), the sweep deletes nothing — the Python slice `filtered[0:-0]` is
`filtered[0:0] = []` — so 1 ≠ 0 matching files remain, contradicting the
claim that exactly M remain. -/
theorem c5_cap_zero_counterexample :
    (0 : Int) < ((filteredImgs [w1] wfp).length : Int) ∧
    deleteImages [w1] wfp 0 = [w1] ∧
    ((deleteImages [w1] wfp 0).filter (imgMatches wfp)).length ≠ 0 := by
  decide

/-- C5 (amended): for every retention cap M ≥ 1, if N matching files exceed
the cap then the sweep leaves exactly M matching files on disk, namely the
M most recently created ones (the tail of the ctime-ascending matching
list); for M = 0 the sweep deletes nothing.  The directory listing is
assumed duplicate-free, as filesystem listings are. -/
theorem c5_sweep_keeps_cap_most_recent (files : List DirEntry) (fp : String)
    (M : Int) (hnd : files.Nodup) (hM : 1 ≤ M)
    (hlen : M < ((filteredImgs files fp).length : Int)) :
    ((deleteImages files fp M).filter (imgMatches fp)).Perm
      ((filteredImgs files fp).drop ((filteredImgs files fp).length - M.toNat)) ∧
    ((deleteImages files fp M).filter (imgMatches fp)).length = M.toNat := by
  have hperm := sweep_remaining_perm files fp M hnd hM hlen
  refine ⟨hperm, ?_⟩
  rw [hperm.length_eq, List.length_drop]
  omega

/-- Witness for C5 at a concrete directory: three matching files with
creation times 5, 1, 3 and cap 2; the sweep keeps the two most recent. -/
theorem c5_sweep_keeps_cap_most_recent_witness :
    ([w1, w2, w3] : List DirEntry).Nodup ∧ (1 : Int) ≤ 2 ∧
    (2 : Int) < ((filteredImgs [w1, w2, w3] wfp).length : Int) ∧
    (((deleteImages [w1, w2, w3] wfp 2).filter (imgMatches wfp)).Perm
      ((filteredImgs [w1, w2, w3] wfp).drop
        ((filteredImgs [w1, w2, w3] wfp).length - (2 : Int).toNat)) ∧
    ((deleteImages [w1, w2, w3] wfp 2).filter (imgMatches wfp)).length = (2 : Int).toNat) :=
  ⟨by decide, by decide, by decide,
    c5_sweep_keeps_cap_most_recent [w1, w2, w3] wfp 2 (by decide) (by decide) (by decide)⟩

/-- Concrete inputs for C6: fingerprint `fpA6` is a substring of the
filenames belonging to fingerprint `fpB6`. -/
def fpA6 : String := "AAAAAAAAAAAAAAAA"

def fpB6 : String := "AAAAAAAAAAAAAAAAB"

def eB6 : DirEntry := ⟨"/imgs/AAAAAAAAAAAAAAAAB_1.jpg", 0⟩

def eA6 : DirEntry := ⟨"/imgs/AAAAAAAAAAAAAAAA_2.jpg", 1⟩

/-- C6 counterexample: matching is by substring (`fingerprint in str(img)`),
so with two distinct fingerprints where one is a prefix of the other, the
sweep for the shorter fingerprint counts the file of the other camera
toward its cap and deletes it. -/
theorem c6_substring_counterexample :
    fpA6 ≠ fpB6 ∧
    imgMatches fpB6 eB6 = true ∧
    eB6 ∈ filteredImgs [eB6, eA6] fpA6 ∧
    deleteImages [eB6, eA6] fpA6 1 = [eA6] := by
  decide

/-- C6 (amended): the sweep for a fingerprint never counts toward its cap,
nor deletes, a file whose path does not contain that fingerprint as a
substring; files of a different fingerprint are protected exactly when the
sweeping fingerprint does not occur inside their paths (substring matching
makes overlapping fingerprints collide). -/
theorem c6_other_fingerprint_untouched (files : List DirEntry) (fpA : String)
    (M : Int) (e : DirEntry) (he : e ∈ files)
    (hnc : strContains e.path fpA = false) :
    e ∈ deleteImages files fpA M ∧ e ∉ filteredImgs files fpA := by
  have hm : imgMatches fpA e = false := by
    unfold imgMatches
    rw [hnc, Bool.false_and]
  have hnf : e ∉ filteredImgs files fpA := by
    intro hmem
    have := (List.mem_filter.mp hmem).2
    rw [hm] at this
    exact Bool.false_ne_true this
  refine ⟨?_, hnf⟩
  rw [deleteImages_eq]
  split
  · refine List.mem_filter.mpr ⟨he, ?_⟩
    simp only [decide_eq_true_eq]
    intro hdel
    have hsub : pySliceUpto (filteredImgs files fpA) (-1 * M) ⊆ filteredImgs files fpA := by
      unfold pySliceUpto
      exact List.take_subset _ _
    exact hnf (hsub hdel)
  · exact he

/-- Witness for C6 at a concrete directory: a file of a disjoint
fingerprint survives the sweep and is not counted. -/
theorem c6_other_fingerprint_untouched_witness :
    (⟨"/imgs/ZZZZZZZZZZZZZZZZ_1.jpg", 0⟩ : DirEntry) ∈ [⟨"/imgs/ZZZZZZZZZZZZZZZZ_1.jpg", 0⟩, w1] ∧
    strContains "/imgs/ZZZZZZZZZZZZZZZZ_1.jpg" wfp = false ∧
    ((⟨"/imgs/ZZZZZZZZZZZZZZZZ_1.jpg", 0⟩ : DirEntry) ∈
        deleteImages [⟨"/imgs/ZZZZZZZZZZZZZZZZ_1.jpg", 0⟩, w1] wfp 0 ∧
      (⟨"/imgs/ZZZZZZZZZZZZZZZZ_1.jpg", 0⟩ : DirEntry) ∉
        filteredImgs [⟨"/imgs/ZZZZZZZZZZZZZZZZ_1.jpg", 0⟩, w1] wfp) :=
  ⟨by decide, by decide,
    c6_other_fingerprint_untouched [⟨"/imgs/ZZZZZZZZZZZZZZZZ_1.jpg", 0⟩, w1] wfp 0
      ⟨"/imgs/ZZZZZZZZZZZZZZZZ_1.jpg", 0⟩ (by decide) (by decide)⟩

/-! ## Lemmas about the poll loop -/

theorem runQueries_all_fail (k : Nat) :
    runQueries (List.replicate k QOut.fail) = none := by
  induction k with
  | zero => rfl
  | succ n ih =>
    rw [List.replicate_succ]
    simp [runQueries, ih]

theorem runQueries_fail_then_ok (k : Nat) (b : JVal) (rest : List QOut) :
    runQueries (List.replicate k QOut.fail ++ QOut.ok b :: rest) = some (b, k) := by
  induction k with
  | zero => rfl
  | succ n ih =>
    rw [List.replicate_succ, List.cons_append]
    simp [runQueries, ih]

theorem iterate_queries_ok (st : LoopState) (k : Nat) (body : JVal) (rest : List QOut)
    (cap : Option String) (v : JVal) (h : readState body = Except.ok v) :
    iterate st ⟨List.replicate k QOut.fail ++ QOut.ok body :: rest, cap⟩ =
      match cap with
      | none => IterOut.next ⟨v, st.dir⟩
          (List.replicate (k + 1) Ev.query ++
            [Ev.capture, Ev.sleep (sleepFor st.printer_status)])
      | some nm => IterOut.next ⟨v, st.dir ++ [nm]⟩
          (List.replicate (k + 1) Ev.query ++
            [Ev.capture, Ev.upload nm, Ev.sleep (sleepFor st.printer_status)]) := by
  unfold iterate
  rw [show (⟨List.replicate k QOut.fail ++ QOut.ok body :: rest, cap⟩ : IterIn).queries =
        List.replicate k QOut.fail ++ QOut.ok body :: rest from rfl,
      runQueries_fail_then_ok]
  dsimp only
  rw [h]

theorem runLoop_replicate_stdIn_dir (n : Nat) (st : LoopState) :
    (runLoop st (List.replicate n stdIn)).dir =
      st.dir ++ List.replicate n "FPFPFPFPFPFPFPFP_t.jpg" := by
  induction n generalizing st with
  | zero => simp [runLoop]
  | succ m ih =>
    rw [List.replicate_succ]
    have hit : iterate st stdIn = IterOut.next
        ⟨JVal.str "PRINTING", st.dir ++ ["FPFPFPFPFPFPFPFP_t.jpg"]⟩
        (List.replicate 1 Ev.query ++
          [Ev.capture, Ev.upload "FPFPFPFPFPFPFPFP_t.jpg",
            Ev.sleep (sleepFor st.printer_status)]) :=
      iterate_queries_ok st 0 printingBody [] (some "FPFPFPFPFPFPFPFP_t.jpg")
        (JVal.str "PRINTING") rfl
    simp only [runLoop]
    rw [hit]
    dsimp only
    rw [ih]
    simp [List.replicate_succ, List.append_assoc]

/-! ## Claim C1: the retention sweep in the loop -/

/-- C1 fails on the code: the poll loop never invokes `deleteImages`
(the parsed `max_images` is never used), so after 501 healthy iterations
the directory holds 501 files matching the fingerprint, exceeding the
default retention cap of 500.  This theorem evaluates the loop model at
that failing input. -/
theorem c1_retention_never_swept :
    500 < ((runLoop ⟨JVal.str "PRINTING", []⟩ (List.replicate 501 stdIn)).dir.filter
      (fun nm => strContains nm wfp && strContains nm ".jpg")).length := by
  rw [runLoop_replicate_stdIn_dir 501 ⟨JVal.str "PRINTING", []⟩]
  dsimp only
  rw [List.nil_append, List.filter_eq_self.mpr, List.length_replicate]
  · omega
  · intro a ha
    rw [List.eq_of_mem_replicate ha]
    decide

/-! ## Claims C2 and C3: captureImage failure handling -/

/-- C2 fails on the code: on both failure paths (`cap.isOpened()` false,
and `ret` false from `cap.read()`), `captureImage` raises `NameError`
instead of returning `None`: the success print at line 97 sits outside the
`ret` check and the intended `return None` is misindented inside the
`except` block, leaving the final `return img_path` to dereference an
unbound local.  The loop-side half of the claim does hold: when the
capture outcome is `None`, the iteration performs no upload and proceeds
to the sleep. -/
theorem c2_capture_failure_raises (fp ts : String) (rot : Option RotCode)
    (f : Frame) (st : LoopState) :
    (captureImage ⟨false, false, false⟩ fp ts rot f).1 = Except.error PyErr.nameError ∧
    (captureImage ⟨true, false, false⟩ fp ts rot f).1 = Except.error PyErr.nameError ∧
    iterate st ⟨[QOut.ok printingBody], none⟩ =
      IterOut.next ⟨JVal.str "PRINTING", st.dir⟩
        [Ev.query, Ev.capture, Ev.sleep (sleepFor st.printer_status)] ∧
    (∀ nm, Ev.upload nm ∉
      ([Ev.query, Ev.capture, Ev.sleep (sleepFor st.printer_status)] : List Ev)) := by
  refine ⟨rfl, rfl, rfl, ?_⟩
  intro nm hn
  simp at hn

/-- C3 fails on the code on one path: when the source opens but no frame
can be read, the `NameError` raised by the misplaced success print escapes
before `cap.release()` is reached, so the handle is not released on that
exit path; on the success and source-not-opened paths the release does
happen. -/
theorem c3_release_skipped_on_read_failure (fp ts : String)
    (rot : Option RotCode) (f : Frame) :
    (captureImage ⟨true, false, false⟩ fp ts rot f).2 = false ∧
    (captureImage ⟨true, true, false⟩ fp ts rot f).2 = true ∧
    (captureImage ⟨true, true, true⟩ fp ts rot f).2 = true ∧
    (captureImage ⟨false, false, false⟩ fp ts rot f).2 = true :=
  ⟨rfl, rfl, rfl, rfl⟩

/-! ## Claim C4: unconfirmed camera selection -/

/-- C4 counterexample: when no candidate index is confirmed,
`selectCamera` does return the -1 sentinel, but startup does not abort:
the camera-configuration step succeeds with `camera_id = -1` and the
process proceeds toward the poll loop, contradicting the claimed fatal
configuration error. -/
theorem c4_no_confirmation_counterexample :
    selectCamera (fun _ => false) (fun _ => false) = -1 ∧
    cameraStartupCLI none (fun _ => true) (fun _ => false) (fun _ => false) =
      Except.ok (CameraId.idx (-1)) :=
  ⟨rfl, rfl⟩

/-- C4 (amended): if interactive selection confirms no candidate index,
`selectCamera` returns the -1 sentinel, and the caller performs no check
on it: camera startup completes without error and the loop is entered
with `camera_id = -1` (each later capture then simply fails to open the
device). -/
theorem c4_sentinel_returned_but_not_fatal (verify : String → Bool)
    (readable confirmed : Nat → Bool)
    (h : ∀ i, i < 10 → ¬(readable i = true ∧ confirmed i = true)) :
    selectCamera readable confirmed = -1 ∧
    cameraStartupCLI none verify readable confirmed =
      Except.ok (CameraId.idx (-1)) := by
  have hfind : (List.range 10).find? (fun i => readable i && confirmed i) = none :=
    List.find?_eq_none.mpr (fun i hi hb =>
      h i (List.mem_range.mp hi) (by simpa using hb))
  have hsel : selectCamera readable confirmed = -1 := by
    unfold selectCamera
    rw [hfind]
  refine ⟨hsel, ?_⟩
  unfold cameraStartupCLI
  rw [hsel]

/-- Witness for C4 with no readable camera and a denying operator. -/
theorem c4_sentinel_returned_but_not_fatal_witness :
    (∀ i, i < 10 → ¬((fun _ : Nat => false) i = true ∧ (fun _ : Nat => false) i = true)) ∧
    (selectCamera (fun _ => false) (fun _ => false) = -1 ∧
      cameraStartupCLI none (fun _ => true) (fun _ => false) (fun _ => false) =
        Except.ok (CameraId.idx (-1))) :=
  ⟨fun _ _ hand => Bool.false_ne_true hand.1,
    c4_sentinel_returned_but_not_fatal (fun _ => true) (fun _ => false) (fun _ => false)
      (fun _ _ hand => Bool.false_ne_true hand.1)⟩

/-! ## Claim C7: the sleep interval -/

/-- C7 counterexample: in the `PRINTING` branch, the iteration that reads
the state `IDLE` still sleeps 60 time-units — the sleep follows the
branch entered with the previous state, not the state just read, because
`time.sleep` runs before the `while` condition is re-checked. -/
theorem c7_transition_sleep_counterexample :
    iterate ⟨JVal.str "PRINTING", []⟩ ⟨[QOut.ok idleBody], none⟩ =
      IterOut.next ⟨JVal.str "IDLE", []⟩ [Ev.query, Ev.capture, Ev.sleep 60] ∧
    isPrinting (JVal.str "IDLE") = false ∧ (60 : Nat) ≠ 120 :=
  ⟨rfl, rfl, by decide⟩

/-- C7 (amended): in every completed iteration the single sleep is 60
time-units when the state at iteration entry (the one read in the
previous iteration, which selected the branch) is `PRINTING` and 120
otherwise; in the iterations where the state changes, the sleep matches
the old state, not the state just read. -/
theorem c7_sleep_matches_entry_state (st : LoopState) (inp : IterIn)
    (st2 : LoopState) (evs : List Ev)
    (h : iterate st inp = IterOut.next st2 evs) :
    Ev.sleep (sleepFor st.printer_status) ∈ evs ∧
    (∀ n, Ev.sleep n ∈ evs → n = sleepFor st.printer_status) ∧
    sleepFor st.printer_status =
      (if isPrinting st.printer_status then 60 else 120) := by
  unfold iterate at h
  rcases hq : runQueries inp.queries with - | ⟨body, k⟩ <;> rw [hq] at h <;> dsimp only at h
  · exact absurd h (by simp)
  rcases hr : readState body with e | ns <;> rw [hr] at h <;> dsimp only at h
  · exact absurd h (by simp)
  rcases hc : inp.capture with - | nm <;> rw [hc] at h <;> dsimp only at h
  all_goals {
    injection h with h1 h2
    subst h2
    refine ⟨by simp, ?_, rfl⟩
    intro n hn
    rcases List.mem_append.mp hn with h3 | h3
    · exact absurd (List.eq_of_mem_replicate h3) (by simp)
    · simp at h3
      exact h3
  }

/-- Witness for C7 at a transition out of the idle branch: reading
`PRINTING` still sleeps 120. -/
theorem c7_sleep_matches_entry_state_witness :
    iterate ⟨JVal.str "IDLE", []⟩ ⟨[QOut.ok printingBody], none⟩ =
      IterOut.next ⟨JVal.str "PRINTING", []⟩ [Ev.query, Ev.capture, Ev.sleep 120] ∧
    (Ev.sleep (sleepFor (JVal.str "IDLE")) ∈
        ([Ev.query, Ev.capture, Ev.sleep 120] : List Ev) ∧
      (∀ n, Ev.sleep n ∈ ([Ev.query, Ev.capture, Ev.sleep 120] : List Ev) →
        n = sleepFor (JVal.str "IDLE")) ∧
      sleepFor (JVal.str "IDLE") =
        (if isPrinting (JVal.str "IDLE") then 60 else 120)) :=
  ⟨rfl, c7_sleep_matches_entry_state ⟨JVal.str "IDLE", []⟩ ⟨[QOut.ok printingBody], none⟩
    ⟨JVal.str "PRINTING", []⟩ [Ev.query, Ev.capture, Ev.sleep 120] rfl⟩

/-! ## Claim C9: the tight retry on query failure -/

/-- C9: every status-query failure inside the loop is caught and the
query is immediately re-issued: k failures followed by a success give
k + 1 consecutive query events with no sleep among them and no crash, and
an all-failure input leaves the loop still retrying (only query events,
no crash, no sleep), without bound. -/
theorem c9_query_failure_tight_retry (st : LoopState) (k : Nat) (body v : JVal)
    (cap : Option String) (h : readState body = Except.ok v) :
    (∃ st2 evs, iterate st ⟨List.replicate k QOut.fail ++ [QOut.ok body], cap⟩ =
        IterOut.next st2 evs ∧
      evs.take (k + 1) = List.replicate (k + 1) Ev.query ∧
      ∀ n, Ev.sleep n ∉ evs.take (k + 1)) ∧
    iterate st ⟨List.replicate k QOut.fail, cap⟩ =
      IterOut.stuckRetrying (List.replicate k Ev.query) := by
  constructor
  · have hq := iterate_queries_ok st k body [] cap v h
    have htake : ∀ tail : List Ev,
        (List.replicate (k + 1) Ev.query ++ tail).take (k + 1) =
          List.replicate (k + 1) Ev.query := by
      intro tail
      have h0 := List.take_left (List.replicate (k + 1) Ev.query) tail
      rw [List.length_replicate] at h0
      exact h0
    cases cap with
    | none =>
      refine ⟨_, _, hq, htake _, ?_⟩
      intro n hn
      rw [htake] at hn
      exact absurd (List.eq_of_mem_replicate hn) (by simp)
    | some nm =>
      refine ⟨_, _, hq, htake _, ?_⟩
      intro n hn
      rw [htake] at hn
      exact absurd (List.eq_of_mem_replicate hn) (by simp)
  · unfold iterate
    rw [show (⟨List.replicate k QOut.fail, cap⟩ : IterIn).queries =
          List.replicate k QOut.fail from rfl, runQueries_all_fail]
    dsimp only
    rw [List.map_replicate]

/-- Witness for C9: two failures, then a healthy response. -/
theorem c9_query_failure_tight_retry_witness :
    readState printingBody = Except.ok (JVal.str "PRINTING") ∧
    ((∃ st2 evs, iterate ⟨JVal.str "PRINTING", []⟩
          ⟨List.replicate 2 QOut.fail ++ [QOut.ok printingBody], some "f.jpg"⟩ =
        IterOut.next st2 evs ∧
      evs.take 3 = List.replicate 3 Ev.query ∧
      ∀ n, Ev.sleep n ∉ evs.take 3) ∧
    iterate ⟨JVal.str "PRINTING", []⟩ ⟨List.replicate 2 QOut.fail, some "f.jpg"⟩ =
      IterOut.stuckRetrying (List.replicate 2 Ev.query)) :=
  ⟨rfl, c9_query_failure_tight_retry ⟨JVal.str "PRINTING", []⟩ 2 printingBody
    (JVal.str "PRINTING") (some "f.jpg") rfl⟩

/-! ## Claim C10: unprotected field accesses -/

/-- C10: a successful query whose body lacks the `"printer"` or nested
`"state"` key fails at the field access outside the `try`, so the lookup
error escapes and terminates the loop; and the initial pre-loop status
query is entirely unprotected, so both a network failure and a missing
key terminate the process at startup. -/
theorem c10_unprotected_field_access (st : LoopState) (cap : Option String)
    (rest : List QOut) (body : JVal) (e : PyErr)
    (h : readState body = Except.error e) :
    iterate st ⟨QOut.ok body :: rest, cap⟩ = IterOut.crashed e [Ev.query] ∧
    startupStatus (QOut.ok body) = Except.error e ∧
    startupStatus QOut.fail = Except.error PyErr.networkError := by
  refine ⟨?_, h, rfl⟩
  unfold iterate
  rw [show (⟨QOut.ok body :: rest, cap⟩ : IterIn).queries = QOut.ok body :: rest from rfl,
    show runQueries (QOut.ok body :: rest) = some (body, 0) from rfl]
  dsimp only
  rw [h]
  rfl

/-- Witness for C10: a parsed body `{}` with no `"printer"` key. -/
theorem c10_unprotected_field_access_witness :
    readState (JVal.obj []) = Except.error PyErr.keyError ∧
    (iterate ⟨JVal.str "PRINTING", []⟩ ⟨[QOut.ok (JVal.obj [])], none⟩ =
        IterOut.crashed PyErr.keyError [Ev.query] ∧
      startupStatus (QOut.ok (JVal.obj [])) = Except.error PyErr.keyError ∧
      startupStatus QOut.fail = Except.error PyErr.networkError) :=
  ⟨rfl, c10_unprotected_field_access ⟨JVal.str "PRINTING", []⟩ none [] (JVal.obj [])
    PyErr.keyError rfl⟩

/-! ## Claim C8: rotation configuration -/

/-- C8 counterexample: 360 is a multiple of 90, but startup does not
accept it — `possible_rot[4]` raises `IndexError` on both configuration
paths, contradicting the claim that every multiple of 90 is accepted. -/
theorem c8_rotate_360_counterexample :
    (360 : Int) % 90 = 0 ∧
    parseRotateCLI 360 = Except.error PyErr.indexError ∧
    parseRotateJSON (some 360) = Except.error PyErr.indexError :=
  ⟨by decide, rfl, rfl⟩

/-- C8 (amended): multiples of 90 from -360 to 270 are accepted and the
stored image is the raw frame rotated by that angle (negative values work
by the end-relative Python list indexing); values that are not multiples of
90 raise the fatal `TypeError` at startup; multiples of 90 outside
[-360, 270] instead raise `IndexError` at startup. -/
theorem c8_rotation_mapping (r : Int) (f : Frame) (ho : f.orient < 360) :
    (90 ∣ r → -360 ≤ r → r ≤ 270 →
      ∃ c, parseRotateCLI r = Except.ok c ∧ parseRotateJSON (some r) = Except.ok c ∧
        storedFrame c f = ⟨f.data, (((f.orient : Int) + r) % 360).toNat⟩) ∧
    (¬(90 ∣ r) →
      parseRotateCLI r = Except.error PyErr.typeError ∧
      parseRotateJSON (some r) = Except.error PyErr.typeError) := by
  constructor
  · rintro ⟨k, rfl⟩ h1 h2
    have hk1 : -4 ≤ k := by omega
    have hk2 : k ≤ 3 := by omega
    obtain ⟨d, o⟩ := f
    dsimp only at ho ⊢
    interval_cases k
    · refine ⟨none, rfl, rfl, ?_⟩
      simp only [storedFrame, Frame.mk.injEq]
      exact ⟨trivial, by omega⟩
    · refine ⟨some RotCode.cw90, rfl, rfl, ?_⟩
      simp only [storedFrame, cvRotate, rotDegrees, Frame.mk.injEq]
      exact ⟨trivial, by omega⟩
    · refine ⟨some RotCode.r180, rfl, rfl, ?_⟩
      simp only [storedFrame, cvRotate, rotDegrees, Frame.mk.injEq]
      exact ⟨trivial, by omega⟩
    · refine ⟨some RotCode.ccw90, rfl, rfl, ?_⟩
      simp only [storedFrame, cvRotate, rotDegrees, Frame.mk.injEq]
      exact ⟨trivial, by omega⟩
    · refine ⟨none, rfl, rfl, ?_⟩
      simp only [storedFrame, Frame.mk.injEq]
      exact ⟨trivial, by omega⟩
    · refine ⟨some RotCode.cw90, rfl, rfl, ?_⟩
      simp only [storedFrame, cvRotate, rotDegrees, Frame.mk.injEq]
      exact ⟨trivial, by omega⟩
    · refine ⟨some RotCode.r180, rfl, rfl, ?_⟩
      simp only [storedFrame, cvRotate, rotDegrees, Frame.mk.injEq]
      exact ⟨trivial, by omega⟩
    · refine ⟨some RotCode.ccw90, rfl, rfl, ?_⟩
      simp only [storedFrame, cvRotate, rotDegrees, Frame.mk.injEq]
      exact ⟨trivial, by omega⟩
  · intro hnd
    have hne : ¬(r % 90 = 0) := fun he => hnd (Int.dvd_of_emod_eq_zero he)
    constructor
    · unfold parseRotateCLI
      rw [if_neg hne]
    · show (if r % 90 = 0 then pyIndex possible_rot (r / 90)
          else Except.error PyErr.typeError) = Except.error PyErr.typeError
      rw [if_neg hne]

/-- Witness for C8 at rotation -90 on a frame at orientation 180: the
stored frame faces 90. -/
theorem c8_rotation_mapping_witness :
    (⟨7, 180⟩ : Frame).orient < 360 ∧ (90 : Int) ∣ -90 ∧
    (-360 : Int) ≤ -90 ∧ (-90 : Int) ≤ 270 ∧
    ∃ c, parseRotateCLI (-90) = Except.ok c ∧
      parseRotateJSON (some (-90)) = Except.ok c ∧
      storedFrame c ⟨7, 180⟩ =
        ⟨(7 : Nat), ((((⟨7, 180⟩ : Frame).orient : Int) + -90) % 360).toNat⟩ :=
  ⟨by decide, ⟨-1, by decide⟩, by decide, by decide,
    (c8_rotation_mapping (-90) ⟨7, 180⟩ (by decide)).1 ⟨-1, by decide⟩
      (by decide) (by decide)⟩

end Prusacam
